import Mathlib

deriving instance DecidableEq for Except

/-
Verification of the connection validator of `custom_components/fronius_modbus/config_flow.py`.

The validator (`validate_input`) receives the configuration record submitted
through the form, performs synchronous field checks, probes the external `Hub`,
and either returns a title or raises one of six typed exceptions.  The step
handler (`ConfigFlow.async_step_user`) maps each exception to an error code and
on success creates an entry.  Exception-based control flow is embedded as an
`Except` result; the external `Hub` collaborator is a parameter describing the
outcome of constructing it and awaiting `init_data()`.
-/

namespace FroniusModbus

/-- Configuration record with the keys of `DATA_SCHEMA` (config_flow.py lines
41-50): name, host, port, inverter unit id, meter unit id, scan interval.
Python integers are unbounded and may be negative, so integer fields are `Int`. -/
structure ConnectionConfig where
  name : String
  host : String
  port : Int
  inverter_unit_id : Int
  meter_unit_id : Int
  scan_interval : Int
  deriving Repr, DecidableEq

/-- The typed exceptions declared at the bottom of config_flow.py (lines
164-180), plus the `Unknown` tag used by the step handler's catch-all
(lines 155-157).  `validate_input` itself only ever produces the first six. -/
inductive FailureReason where
  | CannotConnect
  | InvalidHost
  | InvalidPort
  | UnsupportedHardware
  | AddressesNotUnique
  | ScanIntervalTooShort
  | Unknown
  deriving Repr, DecidableEq

/-- Successful validation result `{"title": data[CONF_NAME]}` (line 117). -/
structure ValidationResult where
  title : String
  deriving Repr, DecidableEq

/-- Modelled from the spec: the external `Hub` exposes a `data` mapping with at
least the keys `i_manufacturer` and `i_model` (spec section 6); these are the
only keys `validate_input` reads (`hub.data.get`, lines 87 and 95), each
possibly absent, hence two `Option` fields. -/
structure HubData where
  i_manufacturer : Option String
  i_model : Option String
  deriving Repr, DecidableEq

/-- Modelled from the spec: outcome of constructing the external `Hub` and
awaiting `hub.init_data()` (lines 77-80).  Either some exception is raised
(`raises`, carrying the exception's rendering - any Python exception, of any
class, is possible here) or the probe succeeds and `hub.data` holds `d`. -/
inductive HubOutcome where
  | raises (exc : String)
  | ok (d : HubData)
  deriving Repr, DecidableEq

/-- The positional arguments passed to the `Hub` constructor at line 78
(`hass` omitted: it is the platform handle, not user data). -/
structure HubArgs where
  name : String
  host : String
  port : Int
  inverter_unit_id : Int
  meter_addresses : List Int
  scan_interval : Int
  deriving Repr, DecidableEq

/-- `meter_addresses` (lines 66-69): `[meter_unit_id]` when positive, else `[]`. -/
def meter_addresses (cfg : ConnectionConfig) : List Int :=
  if cfg.meter_unit_id > 0 then [cfg.meter_unit_id] else []

/-- `all_addresses = meter_addresses + [data[CONF_INVERTER_UNIT_ID]]` (line 71). -/
def all_addresses (cfg : ConnectionConfig) : List Int :=
  meter_addresses cfg ++ [cfg.inverter_unit_id]

/-- The argument record built for `Hub(...)` at line 78. -/
def hub_args (cfg : ConnectionConfig) : HubArgs :=
  ⟨cfg.name, cfg.host, cfg.port, cfg.inverter_unit_id, meter_addresses cfg,
    cfg.scan_interval⟩

/-- Python's `s.startswith(p)`: the code points of `p` are an initial segment
of the code points of `s`. -/
def starts_with (s p : String) : Bool :=
  decide (s.data.take p.data.length = p.data)

/-- The `supported` flag computed by the loop over `SUPPORTED_MODELS` at lines
100-103: start at `False`, set `True` whenever `model.startswith(supported_model)`.
The flag only drives the warning at line 106 - the `raise` at line 107 is
commented out - so `validate_input` below does not consult it. -/
def model_supported (supportedModels : List String) (model : String) : Bool :=
  supportedModels.foldl
    (fun supported supported_model =>
      if starts_with model supported_model then true else supported)
    false

/-- The manufacturer/model checks on `hub.data` (lines 87-98): missing
manufacturer, manufacturer not in `SUPPORTED_MANUFACTURERS`, or missing model
each raise `UnsupportedHardware`; otherwise the title record of line 117 is
returned.  `SUPPORTED_MANUFACTURERS` lives in `const.py` (not part of the
validator module) and is passed in as `supportedManufacturers`. -/
def check_hub_data (supportedManufacturers : List String) (d : HubData)
    (title : String) : Except FailureReason ValidationResult :=
  match d.i_manufacturer with
  | none => .error .UnsupportedHardware
  | some manufacturer =>
    if manufacturer ∉ supportedManufacturers then .error .UnsupportedHardware
    else
      match d.i_model with
      | none => .error .UnsupportedHardware
      | some _model => .ok ⟨title⟩

/-- Shallow embedding of `validate_input` (lines 52-117).  The checks appear in
the source's order and short-circuit exactly as the Python `raise` statements
do; `len(set(all_addresses))` is `(all_addresses cfg).dedup.length`; the
`try`/`except Exception` around the hub probe (lines 77-85) maps every raised
exception to `CannotConnect`.  `supportedModels` (from `const.py`) is accepted
for interface fidelity but, like the source, never affects the result. -/
def validate_input (supportedManufacturers supportedModels : List String)
    (hub : HubArgs → HubOutcome) (data : ConnectionConfig) :
    Except FailureReason ValidationResult :=
  if data.host.length < 3 then .error .InvalidHost
  else if data.port > 65535 then .error .InvalidPort
  else if data.scan_interval < 5 then .error .ScanIntervalTooShort
  else if (all_addresses data).length > (all_addresses data).dedup.length then
    .error .AddressesNotUnique
  else
    match hub (hub_args data) with
    | .raises _ => .error .CannotConnect
    | .ok d => check_hub_data supportedManufacturers d data.name

/-- The entry created by `async_create_entry(title=info["title"], data=user_input)`
at line 142. -/
structure ConfigEntry where
  title : String
  data : ConnectionConfig
  deriving Repr, DecidableEq

/-- Result of one pass through `async_step_user`: either an entry is created or
the form is shown again with an errors mapping (field ↦ error code). -/
inductive StepResult where
  | create_entry (entry : ConfigEntry)
  | show_form (errors : List (String × String))
  deriving Repr, DecidableEq

/-- The exception-to-error-code mapping of the `except` clauses at lines
143-157: field key and error-code string for each failure. -/
def error_map (r : FailureReason) : String × String :=
  match r with
  | .CannotConnect => ("base", "cannot_connect")
  | .InvalidPort => ("base", "invalid_port")
  | .InvalidHost => ("host", "invalid_host")
  | .ScanIntervalTooShort => ("base", "scan_interval_too_short")
  | .UnsupportedHardware => ("base", "unsupported_hardware")
  | .AddressesNotUnique => ("base", "modbus_address_conflict")
  | .Unknown => ("base", "unknown")

/-- Shallow embedding of `ConfigFlow.async_step_user` (lines 129-162): with no
user input the empty form is shown; otherwise `validate_input` runs and either
an entry `{title := info.title, data := user_input}` is created (line 142) or
the form is redisplayed with the error code of the raised exception. -/
def async_step_user (supportedManufacturers supportedModels : List String)
    (hub : HubArgs → HubOutcome) (user_input : Option ConnectionConfig) :
    StepResult :=
  match user_input with
  | none => .show_form []
  | some data =>
    match validate_input supportedManufacturers supportedModels hub data with
    | .ok info => .create_entry ⟨info.title, data⟩
    | .error r => .show_form [error_map r]

/-- Modelled from the spec (section 4.1): the ordered, short-circuiting check
list - host length, port, scan interval, address uniqueness, hub probe - with
the failure of the first violated check, `none` when every check passes.  This
is the spec-side reference that `validate_input` is compared against. -/
def spec_first_failure (hub : HubArgs → HubOutcome) (cfg : ConnectionConfig) :
    Option FailureReason :=
  if cfg.host.length < 3 then some .InvalidHost
  else if cfg.port > 65535 then some .InvalidPort
  else if cfg.scan_interval < 5 then some .ScanIntervalTooShort
  else if ¬ (all_addresses cfg).Nodup then some .AddressesNotUnique
  else
    match hub (hub_args cfg) with
    | .raises _ => some .CannotConnect
    | .ok _ => none

/-! ## Helper lemmas -/

/-- `len(all_addresses) > len(set(all_addresses))` holds exactly when the list
has a duplicate. -/
theorem dedup_length_lt_iff (l : List Int) :
    l.dedup.length < l.length ↔ ¬ l.Nodup := by
  constructor
  · intro h hnd
    rw [List.dedup_eq_self.mpr hnd] at h
    exact lt_irrefl _ h
  · intro hnd
    rcases Nat.lt_or_ge l.dedup.length l.length with h | h
    · exact h
    · exact absurd
        (List.dedup_eq_self.mp
          ((l.dedup_sublist).eq_of_length
            (Nat.le_antisymm ((l.dedup_sublist).length_le) h)))
        hnd

/-- When all four synchronous field checks pass, `validate_input` reduces to
the hub-probe stage. -/
theorem validate_input_probe (sm sModels : List String)
    (hub : HubArgs → HubOutcome) (cfg : ConnectionConfig)
    (h1 : ¬ cfg.host.length < 3) (h2 : ¬ cfg.port > 65535)
    (h3 : ¬ cfg.scan_interval < 5) (h4 : (all_addresses cfg).Nodup) :
    validate_input sm sModels hub cfg =
      match hub (hub_args cfg) with
      | .raises _ => .error .CannotConnect
      | .ok d => check_hub_data sm d cfg.name := by
  unfold validate_input
  rw [if_neg h1, if_neg h2, if_neg h3,
    if_neg (fun hc => (dedup_length_lt_iff _).mp hc h4)]

/-- With a present, supported manufacturer and a present model,
`check_hub_data` returns the title record. -/
theorem check_hub_data_ok (sm : List String) (d : HubData) (t m model : String)
    (hman : d.i_manufacturer = some m) (hsup : m ∈ sm)
    (hmodel : d.i_model = some model) :
    check_hub_data sm d t = .ok ⟨t⟩ := by
  unfold check_hub_data
  rw [hman]
  simp only [hsup, not_true_eq_false, if_false]
  rw [hmodel]

/-- `check_hub_data` returns either `UnsupportedHardware` or the title record. -/
theorem check_hub_data_cases (sm : List String) (d : HubData) (t : String) :
    check_hub_data sm d t = .error .UnsupportedHardware ∨
      check_hub_data sm d t = .ok ⟨t⟩ := by
  unfold check_hub_data
  cases hm : d.i_manufacturer with
  | none => exact Or.inl rfl
  | some m =>
    by_cases hs : m ∈ sm
    · cases hmo : d.i_model with
      | none => left; simp [hs]
      | some mo => right; simp [hs]
    · left; simp [hs]

/-- `check_hub_data` fails with `UnsupportedHardware` exactly when the
manufacturer is missing, the manufacturer is unsupported, or the model is
missing. -/
theorem check_hub_data_unsupported_iff (sm : List String) (d : HubData)
    (t : String) :
    check_hub_data sm d t = .error .UnsupportedHardware ↔
      (d.i_manufacturer = none ∨
        (∃ m, d.i_manufacturer = some m ∧ m ∉ sm) ∨
        d.i_model = none) := by
  unfold check_hub_data
  cases hm : d.i_manufacturer with
  | none => simp
  | some m =>
    by_cases hs : m ∈ sm
    · cases hmo : d.i_model with
      | none => simp [hs]
      | some mo => simp [hs]
    · simp [hs]

/-- Success of the whole validator, stated once and shared below. -/
theorem validate_ok_aux (sm sModels : List String) (hub : HubArgs → HubOutcome)
    (cfg : ConnectionConfig) (d : HubData) (m model : String)
    (hhost : 3 ≤ cfg.host.length) (hport : cfg.port ≤ 65535)
    (hscan : 5 ≤ cfg.scan_interval) (haddr : (all_addresses cfg).Nodup)
    (hhub : hub (hub_args cfg) = HubOutcome.ok d)
    (hman : d.i_manufacturer = some m) (hsup : m ∈ sm)
    (hmodel : d.i_model = some model) :
    validate_input sm sModels hub cfg = .ok ⟨cfg.name⟩ := by
  rw [validate_input_probe sm sModels hub cfg (by omega) (by omega) (by omega)
    haddr, hhub]
  exact check_hub_data_ok sm d cfg.name m model hman hsup hmodel

/-- A raising hub probe yields `CannotConnect`, stated once and shared below. -/
theorem validate_cc_aux (sm sModels : List String) (hub : HubArgs → HubOutcome)
    (cfg : ConnectionConfig) (e : String)
    (hhost : 3 ≤ cfg.host.length) (hport : cfg.port ≤ 65535)
    (hscan : 5 ≤ cfg.scan_interval) (haddr : (all_addresses cfg).Nodup)
    (hhub : hub (hub_args cfg) = HubOutcome.raises e) :
    validate_input sm sModels hub cfg = .error .CannotConnect := by
  rw [validate_input_probe sm sModels hub cfg (by omega) (by omega) (by omega)
    haddr, hhub]

/-- Unfolding of the step handler on submitted input. -/
theorem async_step_user_eq (sm sModels : List String)
    (hub : HubArgs → HubOutcome) (data : ConnectionConfig) :
    async_step_user sm sModels hub (some data) =
      match validate_input sm sModels hub data with
      | .ok info => .create_entry ⟨info.title, data⟩
      | .error r => .show_form [error_map r] := rfl

/-! ## Claim theorems -/

/-- C1: for every config passing all checks (host length ≥ 3, port ≤ 65535,
scan_interval ≥ 5, unique addresses, hub probe succeeds, supported
manufacturer, model present), `validate_input` returns the result whose title
equals the config's name, and the created entry has title = name and
data = the full submitted config record. -/
theorem validate_input_success (sm sModels : List String)
    (hub : HubArgs → HubOutcome) (cfg : ConnectionConfig) (d : HubData)
    (manufacturer model : String)
    (hhost : 3 ≤ cfg.host.length) (hport : cfg.port ≤ 65535)
    (hscan : 5 ≤ cfg.scan_interval) (haddr : (all_addresses cfg).Nodup)
    (hhub : hub (hub_args cfg) = HubOutcome.ok d)
    (hman : d.i_manufacturer = some manufacturer)
    (hsup : manufacturer ∈ sm)
    (hmodel : d.i_model = some model) :
    validate_input sm sModels hub cfg = .ok ⟨cfg.name⟩ ∧
      async_step_user sm sModels hub (some cfg) =
        .create_entry ⟨cfg.name, cfg⟩ := by
  have hv : validate_input sm sModels hub cfg = .ok ⟨cfg.name⟩ :=
    validate_ok_aux sm sModels hub cfg d manufacturer model hhost hport hscan
      haddr hhub hman hsup hmodel
  refine ⟨hv, ?_⟩
  rw [async_step_user_eq, hv]

/-- C1 witness. -/
theorem validate_input_success_witness :
    validate_input ["Fronius"] ["Primo"]
        (fun _ => HubOutcome.ok ⟨some "Fronius", some "Primo 5.0"⟩)
        ⟨"My PV", "abc", 502, 1, 200, 10⟩ = .ok ⟨"My PV"⟩ ∧
      async_step_user ["Fronius"] ["Primo"]
        (fun _ => HubOutcome.ok ⟨some "Fronius", some "Primo 5.0"⟩)
        (some ⟨"My PV", "abc", 502, 1, 200, 10⟩) =
        .create_entry ⟨"My PV", ⟨"My PV", "abc", 502, 1, 200, 10⟩⟩ :=
  validate_input_success ["Fronius"] ["Primo"]
    (fun _ => HubOutcome.ok ⟨some "Fronius", some "Primo 5.0"⟩)
    ⟨"My PV", "abc", 502, 1, 200, 10⟩ ⟨some "Fronius", some "Primo 5.0"⟩
    "Fronius" "Primo 5.0" (by decide) (by decide) (by decide) (by decide)
    rfl rfl (by decide) rfl

/-- C2: for every config passing the synchronous field checks, if the hub
probe (constructing the hub / awaiting its data fetch) raises any exception,
validation fails with `CannotConnect`. -/
theorem validate_input_cannot_connect (sm sModels : List String)
    (hub : HubArgs → HubOutcome) (cfg : ConnectionConfig) (e : String)
    (hhost : 3 ≤ cfg.host.length) (hport : cfg.port ≤ 65535)
    (hscan : 5 ≤ cfg.scan_interval) (haddr : (all_addresses cfg).Nodup)
    (hhub : hub (hub_args cfg) = HubOutcome.raises e) :
    validate_input sm sModels hub cfg = .error .CannotConnect :=
  validate_cc_aux sm sModels hub cfg e hhost hport hscan haddr hhub

/-- C2 witness. -/
theorem validate_input_cannot_connect_witness :
    validate_input [] [] (fun _ => HubOutcome.raises "ConnectionRefusedError")
      ⟨"Inverter", "abc", 502, 1, 0, 10⟩ = .error .CannotConnect :=
  validate_input_cannot_connect [] []
    (fun _ => HubOutcome.raises "ConnectionRefusedError")
    ⟨"Inverter", "abc", 502, 1, 0, 10⟩ "ConnectionRefusedError"
    (by decide) (by decide) (by decide) (by decide) rfl

/-- C3 counterexample: an unanticipated exception (`ValueError`) raised during
the hub probe is reported with error code `cannot_connect`, not `unknown` -
the probe's `except Exception` maps every exception to `CannotConnect` before
the step handler's catch-all can see it. -/
theorem hub_probe_exception_not_reported_unknown :
    async_step_user [] [] (fun _ => HubOutcome.raises "ValueError")
        (some ⟨"Inverter", "abc", 502, 1, 0, 10⟩) =
      .show_form [("base", "cannot_connect")] ∧
    ("cannot_connect" : String) ≠ "unknown" := by
  exact ⟨by decide, by decide⟩

/-- C3 amended: every exception raised during the hub probe - anticipated or
not - is caught and reported to the user as the specific error code
`cannot_connect` (with detail logged), never as the generic `unknown`. -/
theorem hub_probe_exception_reported_cannot_connect (sm sModels : List String)
    (hub : HubArgs → HubOutcome) (cfg : ConnectionConfig) (e : String)
    (hhost : 3 ≤ cfg.host.length) (hport : cfg.port ≤ 65535)
    (hscan : 5 ≤ cfg.scan_interval) (haddr : (all_addresses cfg).Nodup)
    (hhub : hub (hub_args cfg) = HubOutcome.raises e) :
    async_step_user sm sModels hub (some cfg) =
      .show_form [("base", "cannot_connect")] := by
  rw [async_step_user_eq,
    validate_cc_aux sm sModels hub cfg e hhost hport hscan haddr hhub]
  rfl

/-- C3 witness for the amended claim. -/
theorem hub_probe_exception_reported_cannot_connect_witness :
    async_step_user [] [] (fun _ => HubOutcome.raises "OSError")
        (some ⟨"Inverter", "abc", 502, 1, 0, 10⟩) =
      .show_form [("base", "cannot_connect")] :=
  hub_probe_exception_reported_cannot_connect [] []
    (fun _ => HubOutcome.raises "OSError") ⟨"Inverter", "abc", 502, 1, 0, 10⟩
    "OSError" (by decide) (by decide) (by decide) (by decide) rfl

/-- C4: once the host, port and scan-interval checks pass, validation fails
with `AddressesNotUnique` exactly when the address list - the inverter unit id
plus the meter unit id when positive - has a duplicate. -/
theorem validate_input_addresses_not_unique_iff (sm sModels : List String)
    (hub : HubArgs → HubOutcome) (cfg : ConnectionConfig)
    (hhost : 3 ≤ cfg.host.length) (hport : cfg.port ≤ 65535)
    (hscan : 5 ≤ cfg.scan_interval) :
    validate_input sm sModels hub cfg = .error .AddressesNotUnique ↔
      ¬ (all_addresses cfg).Nodup := by
  have h1 : ¬ cfg.host.length < 3 := by omega
  have h2 : ¬ cfg.port > 65535 := by omega
  have h3 : ¬ cfg.scan_interval < 5 := by omega
  by_cases h4 : (all_addresses cfg).Nodup
  · rw [validate_input_probe sm sModels hub cfg h1 h2 h3 h4]
    simp only [h4, not_true_eq_false, iff_false]
    cases hx : hub (hub_args cfg) with
    | raises e => simp
    | ok d =>
      rcases check_hub_data_cases sm d cfg.name with h | h <;> simp [h]
  · unfold validate_input
    rw [if_neg h1, if_neg h2, if_neg h3,
      if_pos ((dedup_length_lt_iff _).mpr h4)]
    simp [h4]

/-- C4 witness: meter id 5 with inverter id 5 fails with `AddressesNotUnique`;
meter id 0 with inverter id 5 passes the uniqueness check. -/
theorem validate_input_addresses_not_unique_iff_witness :
    validate_input [] [] (fun _ => HubOutcome.raises "x")
        ⟨"n", "abc", 502, 5, 5, 10⟩ = .error .AddressesNotUnique ∧
      validate_input [] [] (fun _ => HubOutcome.raises "x")
        ⟨"n", "abc", 502, 5, 0, 10⟩ ≠ .error .AddressesNotUnique := by
  constructor
  · exact (validate_input_addresses_not_unique_iff [] []
      (fun _ => HubOutcome.raises "x") ⟨"n", "abc", 502, 5, 5, 10⟩
      (by decide) (by decide) (by decide)).mpr (by decide)
  · intro h
    exact ((validate_input_addresses_not_unique_iff [] []
        (fun _ => HubOutcome.raises "x") ⟨"n", "abc", 502, 5, 0, 10⟩
        (by decide) (by decide) (by decide)).mp h)
      (by decide : (all_addresses ⟨"n", "abc", 502, 5, 0, 10⟩).Nodup)

/-- C5: when the hub probe succeeds with a supported manufacturer and a
present model whose prefix matches no supported-model entry (the loop's
`supported` flag stays false), validation still succeeds with the config's
name as title - the mismatch is only a logged warning. -/
theorem validate_input_untested_model_still_ok (sm sModels : List String)
    (hub : HubArgs → HubOutcome) (cfg : ConnectionConfig) (d : HubData)
    (manufacturer model : String)
    (hhost : 3 ≤ cfg.host.length) (hport : cfg.port ≤ 65535)
    (hscan : 5 ≤ cfg.scan_interval) (haddr : (all_addresses cfg).Nodup)
    (hhub : hub (hub_args cfg) = HubOutcome.ok d)
    (hman : d.i_manufacturer = some manufacturer)
    (hsup : manufacturer ∈ sm)
    (hmodel : d.i_model = some model)
    (huntested : model_supported sModels model = false) :
    validate_input sm sModels hub cfg = .ok ⟨cfg.name⟩ :=
  validate_ok_aux sm sModels hub cfg d manufacturer model hhost hport hscan
    haddr hhub hman hsup hmodel

/-- C5 witness: model `Acme X1` matches no entry of the supported-model list
`["Primo", "Symo"]`, yet validation succeeds. -/
theorem validate_input_untested_model_still_ok_witness :
    model_supported ["Primo", "Symo"] "Acme X1" = false ∧
      validate_input ["Fronius"] ["Primo", "Symo"]
        (fun _ => HubOutcome.ok ⟨some "Fronius", some "Acme X1"⟩)
        ⟨"My PV", "abc", 502, 1, 200, 10⟩ = .ok ⟨"My PV"⟩ :=
  ⟨by decide,
    validate_input_untested_model_still_ok ["Fronius"] ["Primo", "Symo"]
      (fun _ => HubOutcome.ok ⟨some "Fronius", some "Acme X1"⟩)
      ⟨"My PV", "abc", 502, 1, 200, 10⟩ ⟨some "Fronius", some "Acme X1"⟩
      "Fronius" "Acme X1" (by decide) (by decide) (by decide) (by decide)
      rfl rfl (by decide) rfl (by decide)⟩

/-- C6: when the hub probe succeeds, validation fails with
`UnsupportedHardware` if and only if the manufacturer field is missing, the
manufacturer is not in the supported-manufacturer list, or the model field is
missing. -/
theorem validate_input_unsupported_hardware_iff (sm sModels : List String)
    (hub : HubArgs → HubOutcome) (cfg : ConnectionConfig) (d : HubData)
    (hhost : 3 ≤ cfg.host.length) (hport : cfg.port ≤ 65535)
    (hscan : 5 ≤ cfg.scan_interval) (haddr : (all_addresses cfg).Nodup)
    (hhub : hub (hub_args cfg) = HubOutcome.ok d) :
    validate_input sm sModels hub cfg = .error .UnsupportedHardware ↔
      (d.i_manufacturer = none ∨
        (∃ m, d.i_manufacturer = some m ∧ m ∉ sm) ∨
        d.i_model = none) := by
  rw [validate_input_probe sm sModels hub cfg (by omega) (by omega) (by omega)
    haddr, hhub]
  exact check_hub_data_unsupported_iff sm d cfg.name

/-- C6 witness: manufacturer `Acme` is not in the list `["Fronius"]`, so the
probe data is rejected as unsupported hardware. -/
theorem validate_input_unsupported_hardware_iff_witness :
    validate_input ["Fronius"] [] (fun _ => HubOutcome.ok ⟨some "Acme", some "M1"⟩)
      ⟨"n", "abc", 502, 1, 0, 10⟩ = .error .UnsupportedHardware :=
  (validate_input_unsupported_hardware_iff ["Fronius"] []
    (fun _ => HubOutcome.ok ⟨some "Acme", some "M1"⟩)
    ⟨"n", "abc", 502, 1, 0, 10⟩ ⟨some "Acme", some "M1"⟩
    (by decide) (by decide) (by decide) (by decide) rfl).mpr
    (Or.inr (Or.inl ⟨"Acme", rfl, by decide⟩))

/-- C7: every config whose host string is shorter than 3 characters fails
validation with `InvalidHost`, whatever the other fields and the hub. -/
theorem validate_input_invalid_host (sm sModels : List String)
    (hub : HubArgs → HubOutcome) (cfg : ConnectionConfig)
    (hhost : cfg.host.length < 3) :
    validate_input sm sModels hub cfg = .error .InvalidHost := by
  unfold validate_input
  rw [if_pos hhost]

/-- C7 witness. -/
theorem validate_input_invalid_host_witness :
    validate_input [] [] (fun _ => HubOutcome.raises "x")
      ⟨"n", "ab", 502, 1, 0, 10⟩ = .error .InvalidHost :=
  validate_input_invalid_host [] [] (fun _ => HubOutcome.raises "x")
    ⟨"n", "ab", 502, 1, 0, 10⟩ (by decide)

/-- C8 counterexample: a config with port 70000 (> 65535) but host `ab`
(shorter than 3) fails with `InvalidHost`, not `InvalidPort` - the host check
runs first and short-circuits. -/
theorem port_above_65535_reported_invalid_host :
    (70000 : Int) > 65535 ∧
      validate_input [] [] (fun _ => HubOutcome.raises "x")
        ⟨"n", "ab", 70000, 1, 0, 10⟩ = .error .InvalidHost ∧
      validate_input [] [] (fun _ => HubOutcome.raises "x")
        ⟨"n", "ab", 70000, 1, 0, 10⟩ ≠ .error .InvalidPort := by
  refine ⟨by decide, by decide, by decide⟩

/-- C8 amended: every config that passes the host-length check (host length
≥ 3) and has port > 65535 fails validation with `InvalidPort`. -/
theorem validate_input_invalid_port (sm sModels : List String)
    (hub : HubArgs → HubOutcome) (cfg : ConnectionConfig)
    (hhost : 3 ≤ cfg.host.length) (hport : 65535 < cfg.port) :
    validate_input sm sModels hub cfg = .error .InvalidPort := by
  unfold validate_input
  rw [if_neg (by omega), if_pos (by omega)]

/-- C8 witness for the amended claim. -/
theorem validate_input_invalid_port_witness :
    validate_input [] [] (fun _ => HubOutcome.raises "x")
      ⟨"n", "abc", 70000, 1, 0, 10⟩ = .error .InvalidPort :=
  validate_input_invalid_port [] [] (fun _ => HubOutcome.raises "x")
    ⟨"n", "abc", 70000, 1, 0, 10⟩ (by decide) (by decide)

/-- C9: the checks run in the fixed order host length, port, scan interval,
address uniqueness, hub probe, short-circuiting on the first failure: whenever
the spec-side ordered check list reports a first violated check,
`validate_input` fails with exactly that failure. -/
theorem validate_input_first_failure (sm sModels : List String)
    (hub : HubArgs → HubOutcome) (cfg : ConnectionConfig) (r : FailureReason)
    (h : spec_first_failure hub cfg = some r) :
    validate_input sm sModels hub cfg = .error r := by
  unfold spec_first_failure at h
  unfold validate_input
  by_cases h1 : cfg.host.length < 3
  · rw [if_pos h1] at h
    rw [if_pos h1]
    cases Option.some.inj h
    rfl
  · rw [if_neg h1] at h
    rw [if_neg h1]
    by_cases h2 : cfg.port > 65535
    · rw [if_pos h2] at h
      rw [if_pos h2]
      cases Option.some.inj h
      rfl
    · rw [if_neg h2] at h
      rw [if_neg h2]
      by_cases h3 : cfg.scan_interval < 5
      · rw [if_pos h3] at h
        rw [if_pos h3]
        cases Option.some.inj h
        rfl
      · rw [if_neg h3] at h
        rw [if_neg h3]
        by_cases h4 : (all_addresses cfg).Nodup
        · rw [if_neg (not_not_intro h4)] at h
          rw [if_neg (fun hc => (dedup_length_lt_iff _).mp hc h4)]
          cases hx : hub (hub_args cfg) with
          | raises e =>
            rw [hx] at h
            cases Option.some.inj h
            rfl
          | ok d =>
            rw [hx] at h
            exact Option.noConfusion h
        · rw [if_pos h4] at h
          rw [if_pos ((dedup_length_lt_iff _).mpr h4)]
          cases Option.some.inj h
          rfl

/-- C9 witness: a config violating the host, port, scan-interval and
uniqueness checks at once reports the earliest failure, `InvalidHost`. -/
theorem validate_input_first_failure_witness :
    spec_first_failure (fun _ => HubOutcome.raises "x")
        ⟨"n", "ab", 70000, 5, 5, 1⟩ = some .InvalidHost ∧
      validate_input [] [] (fun _ => HubOutcome.raises "x")
        ⟨"n", "ab", 70000, 5, 5, 1⟩ = .error .InvalidHost :=
  ⟨by decide,
    validate_input_first_failure [] [] (fun _ => HubOutcome.raises "x")
      ⟨"n", "ab", 70000, 5, 5, 1⟩ .InvalidHost (by decide)⟩

/-- C10: the port check has no lower bound: any config passing the host check
with port ≤ 65535 - including 0 and negative ports - never fails with
`InvalidPort`, and the port reaches the hub constructor unchanged. -/
theorem validate_input_no_port_lower_bound (sm sModels : List String)
    (hub : HubArgs → HubOutcome) (cfg : ConnectionConfig)
    (hhost : 3 ≤ cfg.host.length) (hport : cfg.port ≤ 65535) :
    validate_input sm sModels hub cfg ≠ .error .InvalidPort ∧
      (hub_args cfg).port = cfg.port := by
  refine ⟨?_, rfl⟩
  unfold validate_input
  rw [if_neg (by omega : ¬ cfg.host.length < 3),
    if_neg (by omega : ¬ cfg.port > 65535)]
  by_cases h3 : cfg.scan_interval < 5
  · rw [if_pos h3]
    decide
  · rw [if_neg h3]
    by_cases h4 : (all_addresses cfg).length > (all_addresses cfg).dedup.length
    · rw [if_pos h4]
      decide
    · rw [if_neg h4]
      cases hx : hub (hub_args cfg) with
      | raises e => simp
      | ok d =>
        show check_hub_data sm d cfg.name ≠ .error .InvalidPort
        rcases check_hub_data_cases sm d cfg.name with h | h <;> simp [h]

/-- C10 witness: ports -1 and 0 both pass the port check. -/
theorem validate_input_no_port_lower_bound_witness :
    (validate_input [] [] (fun _ => HubOutcome.raises "x")
        ⟨"n", "abc", -1, 1, 0, 10⟩ ≠ .error .InvalidPort ∧
      (hub_args ⟨"n", "abc", -1, 1, 0, 10⟩).port = -1) ∧
    (validate_input [] [] (fun _ => HubOutcome.raises "x")
        ⟨"n", "abc", 0, 1, 0, 10⟩ ≠ .error .InvalidPort ∧
      (hub_args ⟨"n", "abc", 0, 1, 0, 10⟩).port = 0) :=
  ⟨validate_input_no_port_lower_bound [] [] (fun _ => HubOutcome.raises "x")
      ⟨"n", "abc", -1, 1, 0, 10⟩ (by decide) (by decide),
    validate_input_no_port_lower_bound [] [] (fun _ => HubOutcome.raises "x")
      ⟨"n", "abc", 0, 1, 0, 10⟩ (by decide) (by decide)⟩

end FroniusModbus
